import Mathlib

/-!
Verification development for the Home-Energy integration
(`custom_components/smart_dashboards`).

The Python source is shallowly embedded: each relevant method of
`config_manager.py`, `energy_monitor.py`, `tts_queue.py` and `tts_helper.py`
becomes a pure Lean function over an explicit state record.  Conventions:

* Python floats are modelled as exact rationals (`ℚ`).  `datetime` instants
  (and the ISO timestamp strings compared lexicographically = chronologically)
  are modelled as integer seconds: the scheduler ticks once per second, so
  every instant the monitor observes lies on a whole-second clock, and all
  the source ever does with instants is subtract and compare them.
* Python dicts keyed by strings are modelled as total functions
  `String → _` (with the dict's read-default) or `String → Option _` when
  key membership matters, updated with `Function.update`.
* Calendar dates ("YYYY-MM-DD" strings) are kept as `String` values; only
  equality and lexicographic order on them are used, as in the source.
* Host-platform service calls (switch toggles, TTS dispatch) are modelled as
  emitted events; they are assumed to succeed, so the exception arms of the
  source's `try/except` blocks are not taken.
-/

namespace HomeEnergy

/-! ## Energy Ledger — `config_manager.py`

State touched by `async_add_energy_reading` (lines 481‑495): the per-entity
day-energy dict `_day_energy_data` (entries `{"energy": float}`, modelled as a
total function with default 0), the stored date `_last_reset_date`, and the
`_last_power_update` dict that the reset also clears. -/

structure LedgerState where
  day_energy : String → ℚ
  last_reset_date : Option String
  last_power_update : String → Option ℚ

/-- `async_add_energy_reading(entity_id, watts, elapsed_seconds)`
instrumented with a flag reporting whether the new-day reset branch ran.
`today` is the current local date. -/
def async_add_energy_reading (today : String) (entity_id : String)
    (watts elapsed_seconds : ℚ) (s : LedgerState) : LedgerState × Bool :=
  let p : LedgerState × Bool :=
    if s.last_reset_date ≠ some today then
      (⟨fun _ => 0, some today, fun _ => none⟩, true)
    else (s, false)
  let s1 := p.1
  let newEnergy := Function.update s1.day_energy entity_id
    (s1.day_energy entity_id + watts * elapsed_seconds / 3600)
  ({ s1 with day_energy := newEnergy }, p.2)

/-- `get_day_energy(entity_id)` (line 477). -/
def get_day_energy (s : LedgerState) (entity_id : String) : ℚ :=
  s.day_energy entity_id

/-- Run a finite sequence of readings `(key, watts, elapsed)` through
`async_add_energy_reading`, all on the same local date `today`, counting how
many of the calls took the reset branch. -/
def runLedger (today : String) (s : LedgerState) :
    List (String × ℚ × ℚ) → LedgerState × ℕ
  | [] => (s, 0)
  | (k, w, e) :: rest =>
    let (s1, didReset) := async_add_energy_reading today k w e s
    let (s2, n) := runLedger today s1 rest
    (s2, (if didReset then 1 else 0) + n)

/-- The reference sum `Σ watts_i * elapsed_i / 3600` over the readings that
target `key`. -/
def whSum (key : String) (readings : List (String × ℚ × ℚ)) : ℚ :=
  ((readings.filter (fun r => r.1 = key)).map
    (fun r => r.2.1 * r.2.2 / 3600)).sum

/-! ## Intraday minute history — `config_manager.record_intraday_power`
(lines 497‑513).  `_intraday_last_minute` is a single module-wide marker (not
per entity); `_intraday_history` maps entity id to a list of
`(minute_key, watts)` samples. -/

structure IntradayState where
  intraday_last_minute : Option String
  intraday_history : String → Option (List (String × ℚ))

/-- `record_intraday_power(entity_id, watts)` with the minute bucket
`now.strftime("%Y-%m-%d %H:%M")` passed in as `minute_key`. -/
def record_intraday_power (minute_key entity_id : String) (watts : ℚ)
    (s : IntradayState) : IntradayState :=
  if s.intraday_last_minute = some minute_key ∧
      (s.intraday_history entity_id).isSome then
    let l := (s.intraday_history entity_id).getD []
    if l.isEmpty then s
    else
      let l' := l.dropLast ++ [(minute_key, watts)]
      { s with intraday_history :=
          Function.update s.intraday_history entity_id (some l') }
  else
    let s1 : IntradayState := { s with intraday_last_minute := some minute_key }
    let l := (s1.intraday_history entity_id).getD []
    let l2 := l ++ [(minute_key, watts)]
    let l3 := if 1440 < l2.length then l2.drop (l2.length - 1440) else l2
    { s1 with intraday_history :=
        Function.update s1.intraday_history entity_id (some l3) }

/-- Fold a sequence of `(minute_key, entity_id, watts)` samples through
`record_intraday_power`. -/
def runIntraday (s : IntradayState) : List (String × String × ℚ) → IntradayState
  | [] => s
  | (m, e, w) :: rest => runIntraday (record_intraday_power m e w s) rest

def initIntraday : IntradayState := ⟨none, fun _ => none⟩

/-- The sample sequence exhibiting the intraday overwrite: entity `B` sampled
in minute `m1`, entity `A` sampled in minute `m2`, then `B` sampled in
minute `m2`. -/
def c8_samples : List (String × String × ℚ) :=
  [("m1", "B", 1), ("m2", "A", 2), ("m2", "B", 3)]

/-! ## Power-enforcement state store — `config_manager.py` (lines 1036‑1103).
Per-room dict entries created by `get_enforcement_state`; warning timestamps
(ISO strings, lexicographically = chronologically ordered) are modelled as
integer instants in seconds. -/

structure EnforcementRoom where
  warnings : List (ℤ × ℚ)  -- (timestamp seconds, watts)
  phase : ℕ
  volume_offset : ℕ
  last_phase_change : Option ℤ
  kwh_alerts_sent : List ℤ
deriving DecidableEq

/-- The fresh per-room record built by `get_enforcement_state` (lines
1047‑1054). -/
def freshEnforcementRoom : EnforcementRoom := ⟨[], 0, 0, none, []⟩

/-- `async_record_threshold_warning(room_id, watts)` on a room's record
(lines 1057‑1066): append `(now, watts)`, then keep only warnings from the
last hour (`ts >= now - 1h`). -/
def async_record_threshold_warning (now : ℤ) (watts : ℚ)
    (st : EnforcementRoom) : EnforcementRoom :=
  { st with warnings :=
      (st.warnings ++ [(now, watts)]).filter (fun p => now - 3600 ≤ p.1) }

/-- `get_warnings_in_window(room_id, minutes)` (lines 1068‑1073). -/
def get_warnings_in_window (now : ℤ) (minutes : ℤ) (st : EnforcementRoom) : ℕ :=
  (st.warnings.filter (fun p => now - minutes * 60 ≤ p.1)).length

/-- `async_set_enforcement_phase(room_id, phase)` (lines 1087‑1095). -/
def async_set_enforcement_phase (now : ℤ) (phase : ℕ) (st : EnforcementRoom) :
    EnforcementRoom :=
  if st.phase ≠ phase then
    { st with
        phase := phase,
        last_phase_change := some now,
        volume_offset := if phase = 0 then 0 else st.volume_offset }
  else st

/-- `async_increment_volume_offset(room_id, increment, max_offset)`
(lines 1097‑1103). -/
def async_increment_volume_offset (increment max_offset : ℕ)
    (st : EnforcementRoom) : EnforcementRoom :=
  { st with volume_offset := min max_offset (st.volume_offset + increment) }

/-! ## Event counts, room config and day rollover — `config_manager.py`. -/

structure EventCounts where
  total_warnings : ℕ
  total_shutoffs : ℕ
  room_warnings : String → ℕ
  room_shutoffs : String → ℕ

def zeroEventCounts : EventCounts := ⟨0, 0, fun _ => 0, fun _ => 0⟩

structure OutletCfg where
  otype : String
  name : Option String
  plug1_entity : Option String
  plug2_entity : Option String

structure RoomCfg where
  id : Option String
  name : String
  outlets : List OutletCfg

/-- `room.get("id", room["name"].lower().replace(" ", "_"))`. -/
def room_id_of (r : RoomCfg) : String :=
  match r.id with
  | some i => i
  | none => (r.name.toLower.replace " " "_")

/-- Python's `a or dflt` for strings (empty string is falsy). -/
def pyOrStr (v : Option String) (dflt : String) : String :=
  match v with
  | some s => if s = "" then dflt else s
  | none => dflt

/-- Python's `a or b` for optional date strings. -/
def pyOrOpt (a b : Option String) : Option String :=
  match a with
  | some s => if s = "" then b else some s
  | none => b

/-- Synthetic ledger key for a light-group outlet. -/
def light_key (rid : String) (o : OutletCfg) : String :=
  "light_" ++ rid ++ "_" ++ ((pyOrStr o.name "light").toLower.replace " " "_")

/-- Synthetic ledger key for a ceiling-vent-fan outlet. -/
def ceiling_vent_key (rid : String) (o : OutletCfg) : String :=
  "ceiling_vent_" ++ rid ++ "_" ++ ((pyOrStr o.name "vent").toLower.replace " " "_")

/-- The ledger keys an outlet contributes to a room's Wh sum (snapshot loop,
lines 784‑794). -/
def outletEnergyKeys (rid : String) (o : OutletCfg) : List String :=
  if o.otype = "light" then [light_key rid o]
  else if o.otype = "ceiling_vent_fan" then [ceiling_vent_key rid o]
  else o.plug1_entity.toList ++ o.plug2_entity.toList

/-- Per-room Wh sum over the configured outlet keys. -/
def roomWh (day_energy : String → ℚ) (rid : String) (r : RoomCfg) : ℚ :=
  (r.outlets.map (fun o => ((outletEnergyKeys rid o).map day_energy).sum)).sum

/-- Round-half-to-even (the rounding Python's `round` uses on exact values;
floats are modelled as exact rationals). -/
def roundHalfEven (x : ℚ) : ℤ :=
  let f := ⌊x⌋
  let r := x - f
  if r < 1/2 then f
  else if 1/2 < r then f + 1
  else if f % 2 = 0 then f else f + 1

/-- `round(x, 2)`. -/
def round2 (q : ℚ) : ℚ := (roundHalfEven (q * 100) : ℚ) / 100

structure RoomTotal where
  wh : ℚ
  warnings : ℕ
  shutoffs : ℕ
deriving DecidableEq

structure DailyTotal where
  total_wh : ℚ
  total_warnings : ℕ
  total_shutoffs : ℕ
  rooms : List (String × RoomTotal)
deriving DecidableEq

/-- The config-manager state relevant to day accounting: the live ledger,
today's event counts, the per-room enforcement store, and the daily-totals
archive (an insertion-ordered dict, modelled as an association list). -/
structure CMState where
  day_energy : String → ℚ
  last_reset_date : Option String
  last_power_update : String → Option ℚ
  event_counts : EventCounts
  event_counts_reset_date : Option String
  enforcement_state : String → Option EnforcementRoom
  enforcement_reset_date : Option String
  home_kwh_alert_sent : Bool
  daily_totals : List (String × DailyTotal)

/-- Dict assignment `self._daily_totals[old_date] = ...`. -/
def assocUpdate (l : List (String × DailyTotal)) (k : String) (v : DailyTotal) :
    List (String × DailyTotal) :=
  if l.any (fun p => p.1 = k) then
    l.map (fun p => if p.1 = k then (k, v) else p)
  else l ++ [(k, v)]

/-- The in-memory trim performed by `_async_save_daily_totals` (lines
758‑763): sort dates descending, delete everything beyond the newest 45. -/
def _async_save_daily_totals (dt : List (String × DailyTotal)) :
    List (String × DailyTotal) :=
  let dates_sorted := (dt.map Prod.fst).insertionSort (fun a b => b ≤ a)
  if 45 < dates_sorted.length then
    dt.filter (fun p => ¬ (dates_sorted.drop 45).contains p.1)
  else dt

/-- `_ensure_event_counts_for_today` (lines 616‑626). -/
def _ensure_event_counts_for_today (today : String) (s : CMState) : CMState :=
  if s.event_counts_reset_date ≠ some today then
    { s with
        event_counts := zeroEventCounts,
        event_counts_reset_date := some today }
  else s

/-- `_ensure_enforcement_state_for_today` (lines 1036‑1042). -/
def _ensure_enforcement_state_for_today (today : String) (s : CMState) :
    CMState :=
  if s.enforcement_reset_date ≠ some today then
    { s with
        enforcement_state := fun _ => none,
        home_kwh_alert_sent := false,
        enforcement_reset_date := some today }
  else s

/-- `async_snapshot_day_and_reset_if_rolled_over` (lines 772‑822): if the
stored date is stale, snapshot the old day's per-room totals into the
archive, then clear the ledger and the event counts and stamp both with
today's date.  (Room ids are assumed distinct, as produced by the config
flow.) -/
def async_snapshot_day_and_reset_if_rolled_over (cfg : List RoomCfg)
    (today : String) (s : CMState) : CMState :=
  let old_date := pyOrOpt s.last_reset_date s.event_counts_reset_date
  match old_date with
  | none => s
  | some od =>
    if od = "" ∨ od = today then s
    else
      let rooms_data : List (String × RoomTotal) := cfg.map (fun r =>
        let rid := room_id_of r
        (rid, ⟨round2 (roomWh s.day_energy rid r),
               s.event_counts.room_warnings rid,
               s.event_counts.room_shutoffs rid⟩))
      let total_wh := (rooms_data.map (fun p => p.2.wh)).sum
      let snap : DailyTotal :=
        ⟨round2 total_wh, s.event_counts.total_warnings,
         s.event_counts.total_shutoffs, rooms_data⟩
      { s with
        daily_totals := _async_save_daily_totals (assocUpdate s.daily_totals od snap),
        day_energy := fun _ => 0,
        last_reset_date := some today,
        last_power_update := fun _ => none,
        event_counts := zeroEventCounts,
        event_counts_reset_date := some today }

/-! ## Room alert evaluation — `energy_monitor._send_room_alert`
(lines 601‑776).  A warning event for one room: record the warning, compute
the phase-transition flag, apply the cooldown gate, then the enforcement
phase update and volume escalation.  The TTS attempt itself is reported as
the `announced` boolean; the phase-transition flag is returned alongside. -/

def ALERT_COOLDOWN : ℤ := 60

structure PowerEnforcementCfg where
  enforcement_enabled : Bool
  phase1_enabled : Bool
  phase2_enabled : Bool
  phase1_warning_count : ℕ
  phase1_time_window_minutes : ℤ
  phase2_warning_count : ℕ
  phase2_time_window_minutes : ℤ
  phase1_volume_increment : ℕ

structure RoomAlertState where
  enf : EnforcementRoom
  last_room_alert : Option ℤ

/-- One `_send_room_alert` call.  Returns the new state, whether the alert
TTS was attempted (`announced`), and the computed `phase_transition` flag. -/
def _send_room_alert (pe : PowerEnforcementCfg) (has_media_player : Bool)
    (now : ℤ) (current_watts : ℚ) (s : RoomAlertState) :
    RoomAlertState × Bool × Bool :=
  if has_media_player = false then (s, false, false)
  else
    let enf1 := async_record_threshold_warning now current_watts s.enf
    let w1 := get_warnings_in_window now pe.phase1_time_window_minutes enf1
    let w2 := get_warnings_in_window now pe.phase2_time_window_minutes enf1
    let phase_transition :=
      pe.enforcement_enabled &&
        ((pe.phase2_enabled && decide (pe.phase2_warning_count ≤ w2) &&
            decide (enf1.phase < 2)) ||
         (pe.phase1_enabled && decide (pe.phase1_warning_count ≤ w1) &&
            decide (enf1.phase < 1)))
    let in_cooldown :=
      !phase_transition &&
        (match s.last_room_alert with
         | some t => decide (now - t < ALERT_COOLDOWN)
         | none => false)
    if in_cooldown then ({ s with enf := enf1 }, false, phase_transition)
    else
      let enf2 :=
        if pe.enforcement_enabled then
          if pe.phase2_enabled && decide (pe.phase2_warning_count ≤ w2) &&
              decide (enf1.phase < 2) then
            async_set_enforcement_phase now 2 enf1
          else if pe.phase1_enabled && decide (pe.phase1_warning_count ≤ w1) &&
              decide (enf1.phase < 1) then
            async_set_enforcement_phase now 1 enf1
          else enf1
        else enf1
      let enf3 :=
        if pe.enforcement_enabled ∧ 1 ≤ enf2.phase then
          async_increment_volume_offset pe.phase1_volume_increment 100 enf2
        else enf2
      (⟨enf3, some now⟩, true, phase_transition)

/-- Fold a sequence of room-warning events `(now, watts)` through
`_send_room_alert`, collecting `(time, announced, phase_transition)` per
event. -/
def runRoomAlerts (pe : PowerEnforcementCfg) (hm : Bool) :
    RoomAlertState → List (ℤ × ℚ) → RoomAlertState × List (ℤ × Bool × Bool)
  | s, [] => (s, [])
  | s, (t, w) :: es =>
    let r := _send_room_alert pe hm t w s
    let rest := runRoomAlerts pe hm r.1 es
    (rest.1, (t, r.2.1, r.2.2) :: rest.2)

/-! ## Cooking-safety state machine — `energy_monitor._check_stove_safety`
(lines 1142‑1396).  One stove device, keyed by its power-reading entity.
Each tick carries the instant, the stove's measured wattage, the presence
flag (`state in ("detected", "on")`), and the paired microwave's wattage
(used only when a microwave pairing is configured).  Service calls and TTS
are emitted as timestamped events. -/

inductive StovePhase where
  | phNone
  | ph15min
  | ph30sec
deriving DecidableEq, Repr

inductive StoveEvent where
  | stoveOn          -- stove-on TTS
  | stoveOff         -- stove-off TTS
  | timerStarted     -- cooking-timer-started TTS
  | warn15min        -- cooking-time warning TTS
  | warn30sec        -- final-warning TTS
  | stoveSwitchOff   -- switch.turn_off on the stove switch
  | stoveAutoOffMsg  -- auto-off TTS
  | stoveSwitchOn    -- switch.turn_on on the stove switch
  | mwCutPowerMsg    -- microwave-interlock cut TTS
  | mwRestoreMsg     -- microwave-interlock restore TTS
deriving DecidableEq, Repr

structure StoveCfg where
  stove_power_threshold : ℤ
  stove_off_debounce_seconds : ℤ
  stove_on_debounce_seconds : ℤ
  timer_start_window_seconds : ℤ
  cooking_time_minutes : ℤ
  final_warning_seconds : ℤ
  stove_safety_enabled : Bool     -- `.get("stove_safety_enabled") is False` ↔ this is false
  hasSwitch : Bool                -- plug1_switch configured
  hasMedia : Bool                 -- room media_player configured
  mwPaired : Bool                 -- a microwave outlet with plug1_entity shares the room
  microwave_safety_enabled : Bool
  microwave_power_threshold : ℤ

/-- `cooking_time_sec = max(1, cooking_time_minutes) * 60`. -/
def cooking_time_sec (c : StoveCfg) : ℤ := (max 1 c.cooking_time_minutes) * 60

/-- `final_warning_sec = max(1, min(final_warning_seconds, 300))`. -/
def final_warning_sec (c : StoveCfg) : ℤ :=
  max 1 (min c.final_warning_seconds 300)

structure StoveState where
  stove_state_on : Bool                 -- `_stove_state[key] == "on"`
  timer_start : Option ℤ                -- `_stove_timer_start[key]`
  timer_phase : StovePhase              -- `_stove_timer_phase[key]`
  last_presence : Option Bool           -- `_stove_last_presence[key]`
  warn15_sent : Bool                    -- `_stove_15min_warn_sent[key]`
  warn30_sent : Bool                    -- `_stove_30sec_warn_sent[key]`
  powered_off_by_microwave : Bool       -- `_stove_powered_off_by_microwave[key]`
  power_below_since : Option ℤ          -- `_stove_power_below_since[key]`
  power_above_since : Option ℤ          -- `_stove_power_above_since[key]`
  presence_window_start : Option ℤ      -- `_stove_presence_window_start[key]`
deriving DecidableEq, Repr

def initStoveState : StoveState :=
  ⟨false, none, .phNone, none, false, false, false, none, none, none⟩

structure StoveInput where
  now : ℤ
  power : ℚ       -- `_get_power_value(stove plug1_entity)`
  presence : Bool -- presence sensor reads "detected"/"on"
  mwPower : ℚ     -- `_get_power_value(microwave plug1_entity)`
deriving DecidableEq, Repr

/-- Microwave interlock (lines 1146‑1208), run before the per-stove loop.
Skipped entirely unless a microwave is paired, both safety toggles are on,
and the stove switch is configured.  Service calls are assumed to succeed. -/
def microwaveInterlockStep (c : StoveCfg) (i : StoveInput) (s : StoveState) :
    StoveState × List (ℤ × StoveEvent) :=
  if ¬c.mwPaired then (s, [])
  else if c.stove_safety_enabled = false then (s, [])
  else if c.microwave_safety_enabled = false then (s, [])
  else if ¬c.hasSwitch then (s, [])
  else
    let mw_is_on := (c.microwave_power_threshold : ℚ) < i.mwPower
    let stove_is_on := (c.stove_power_threshold : ℚ) < i.power
    if mw_is_on ∧ stove_is_on then
      if ¬s.powered_off_by_microwave then
        ({ s with powered_off_by_microwave := true },
         (i.now, .stoveSwitchOff) ::
           (if c.hasMedia then [(i.now, .mwCutPowerMsg)] else []))
      else (s, [])
    else if s.powered_off_by_microwave ∧ ¬mw_is_on then
      ({ s with powered_off_by_microwave := false, stove_state_on := true },
       (i.now, .stoveSwitchOn) ::
         (if c.hasMedia then [(i.now, .mwRestoreMsg)] else []))
    else (s, [])

/-- The on/off debounce paragraph (lines 1250‑1287). -/
def stove_debounce_step (c : StoveCfg) (i : StoveInput) (s0 : StoveState) :
    StoveState × List (ℤ × StoveEvent) :=
  if (c.stove_power_threshold : ℚ) < i.power then
    let above_since := s0.power_above_since.getD i.now
    let s := { s0 with
                 power_above_since := some above_since,
                 power_below_since := none }
    if s.stove_state_on = false ∧
        c.stove_on_debounce_seconds ≤ i.now - above_since then
      ({ s with
           stove_state_on := true,
           warn15_sent := false,
           warn30_sent := false },
       if c.hasMedia then [(i.now, .stoveOn)] else [])
    else (s, [])
  else
    let below_since := s0.power_below_since.getD i.now
    let s := { s0 with
                 power_below_since := some below_since,
                 power_above_since := none }
    if s.stove_state_on = true ∧
        c.stove_off_debounce_seconds ≤ i.now - below_since then
      ({ s with
           stove_state_on := false,
           timer_start := none,
           timer_phase := .phNone,
           presence_window_start := none,
           warn15_sent := false,
           warn30_sent := false },
       if s.powered_off_by_microwave = false ∧ c.hasMedia then
         [(i.now, .stoveOff)]
       else [])
    else (s, [])

/-- The presence-detected paragraph (lines 1292‑1300); announces nothing. -/
def stove_presence_reset (s1 : StoveState) : StoveState :=
  let s2 := { s1 with presence_window_start := none }
  let s3 :=
    if s2.timer_phase ≠ StovePhase.phNone then
      { s2 with
          timer_start := none,
          timer_phase := .phNone,
          warn15_sent := false,
          warn30_sent := false }
    else s2
  { s3 with last_presence := some true }

/-- The absence start-window paragraph (lines 1302‑1329). -/
def stove_window_step (c : StoveCfg) (i : StoveInput) (s1 : StoveState) :
    StoveState × List (ℤ × StoveEvent) :=
  if s1.last_presence = some true then
    match s1.presence_window_start with
    | none => ({ s1 with presence_window_start := some i.now }, [])
    | some ws =>
      if c.timer_start_window_seconds ≤ i.now - ws then
        ({ s1 with
             timer_start := some i.now,
             timer_phase := .ph15min,
             presence_window_start := none,
             warn15_sent := false,
             warn30_sent := false,
             last_presence := some false },
         if c.hasMedia then [(i.now, .timerStarted)] else [])
      else (s1, [])
  else (s1, [])

/-- The countdown paragraph (lines 1331‑1396). -/
def stove_countdown_step (c : StoveCfg) (i : StoveInput) (s4 : StoveState) :
    StoveState × List (ℤ × StoveEvent) :=
  match s4.timer_start with
  | none => (s4, [])
  | some ts =>
    let elapsed := i.now - ts
    match s4.timer_phase with
    | .ph15min =>
      if cooking_time_sec c ≤ elapsed then
        let evs3 :=
          if s4.warn15_sent = false ∧ c.hasMedia then
            [(i.now, .warn15min)]
          else []
        let s5 := { s4 with warn15_sent := true }
        if c.stove_safety_enabled = false then
          ({ s5 with
               timer_start := none,
               timer_phase := .phNone,
               warn15_sent := false,
               warn30_sent := false },
           evs3)
        else
          ({ s5 with
               timer_start := some i.now,
               timer_phase := .ph30sec,
               warn30_sent := false },
           evs3)
      else (s4, [])
    | .ph30sec =>
      if final_warning_sec c ≤ elapsed then
        let evs3 :=
          if s4.warn30_sent = false ∧ c.hasMedia then
            [(i.now, .warn30sec)]
          else []
        let evs4 :=
          if c.stove_safety_enabled = true ∧ c.hasSwitch then
            (i.now, .stoveSwitchOff) ::
              (if c.hasMedia then [(i.now, .stoveAutoOffMsg)] else [])
          else []
        ({ s4 with
             timer_start := none,
             timer_phase := .phNone,
             warn15_sent := false,
             warn30_sent := false },
         evs3 ++ evs4)
      else (s4, [])
    | .phNone => (s4, [])

/-- The per-stove body of `_check_stove_safety` (lines 1211‑1396): on/off
debounce, presence handling, the unattended-cooking countdown paragraphs in
source order.  The stove's plug1_entity and presence sensor are assumed
configured (otherwise the source skips the device entirely). -/
def stoveDeviceStep (c : StoveCfg) (i : StoveInput) (s0 : StoveState) :
    StoveState × List (ℤ × StoveEvent) :=
  if s0.powered_off_by_microwave then (s0, [])
  else
    let deb := stove_debounce_step c i s0
    if ¬((c.stove_power_threshold : ℚ) < i.power) then deb
    else if i.presence then (stove_presence_reset deb.1, deb.2)
    else
      let win := stove_window_step c i deb.1
      let cd := stove_countdown_step c i win.1
      (cd.1, deb.2 ++ win.2 ++ cd.2)

/-- One full `_check_stove_safety` tick for a single stove: microwave
interlock first, then the per-stove body. -/
def stoveTick (c : StoveCfg) (i : StoveInput) (s : StoveState) :
    StoveState × List (ℤ × StoveEvent) :=
  let r1 := microwaveInterlockStep c i s
  let r2 := stoveDeviceStep c i r1.1
  (r2.1, r1.2 ++ r2.2)

/-- Run a sequence of ticks, concatenating the emitted events. -/
def runStove (c : StoveCfg) : StoveState → List StoveInput →
    StoveState × List (ℤ × StoveEvent)
  | s, [] => (s, [])
  | s, i :: rest =>
    let r := stoveTick c i s
    let r2 := runStove c r.1 rest
    (r2.1, r.2 ++ r2.2)

/-! ## Announcement gate — `tts_queue.py` and `tts_helper.py`.
One request/poll step is atomic here: the `await` of the actual TTS service
call is collapsed, and the `_sending` add/discard pair around it therefore
cancels out inside a step (the marker is still consulted by
`_can_send_now`).  Ghost fields `dispatched`/`enqueued` record, per device,
the queued items sent so far and every item ever enqueued. -/

def READY_FOR_TTS_STATES : List String := ["on", "idle", "standby"]

/-- `is_media_player_ready_for_tts` (`tts_helper.py` lines 18‑23); `none`
models a missing media-player entity. -/
def is_media_player_ready_for_tts (device_state : Option String) : Bool :=
  match device_state with
  | none => false
  | some st => READY_FOR_TTS_STATES.contains st.toLower

def MIN_TTS_INTERVAL : ℚ := 3

/-- `not message or not message.strip()`: the message is empty or
whitespace-only (computed on the character list). -/
def isBlankStr (s : String) : Bool :=
  s.toList.all Char.isWhitespace

structure TTSItem where
  media_player : String
  message : String
deriving DecidableEq

structure TTSGateState where
  queues : String → List TTSItem
  poll_tasks : String → ℕ          -- number of live (not-done) poll tasks
  sending : String → Bool          -- `_sending` set membership
  last_send_time : String → Option ℚ
  dispatched : String → List TTSItem  -- ghost: queued items sent, in order
  enqueued : String → List TTSItem    -- ghost: all items ever enqueued

def initTTSGate : TTSGateState :=
  ⟨fun _ => [], fun _ => 0, fun _ => false, fun _ => none,
   fun _ => [], fun _ => []⟩

/-- `TTSPendingQueue._can_send_now` (lines 81‑88). -/
def _can_send_now (g : TTSGateState) (mp : String) (now min_interval : ℚ) :
    Bool :=
  if g.sending mp then false
  else
    match g.last_send_time mp with
    | some last => decide (min_interval ≤ now - last)
    | none => true

/-- `TTSPendingQueue.enqueue` (lines 50‑59): append to the device's queue
and start a poll task only if none is live. -/
def TTSPendingQueue_enqueue (g : TTSGateState) (item : TTSItem) :
    TTSGateState :=
  { g with
      queues := Function.update g.queues item.media_player
        (g.queues item.media_player ++ [item]),
      poll_tasks :=
        if g.poll_tasks item.media_player = 0 then
          Function.update g.poll_tasks item.media_player 1
        else g.poll_tasks,
      enqueued := Function.update g.enqueued item.media_player
        (g.enqueued item.media_player ++ [item]) }

/-- `async_send_tts_or_queue` (lines 128‑196).  Returns the new state and
`True` iff the message was sent immediately. -/
def async_send_tts_or_queue (g : TTSGateState) (now : ℚ)
    (device_state : Option String) (min_interval : ℚ) (item : TTSItem) :
    TTSGateState × Bool :=
  if isBlankStr item.message then (g, false)
  else if item.media_player = "" then (g, false)
  else if is_media_player_ready_for_tts device_state &&
      _can_send_now g item.media_player now min_interval then
    ({ g with last_send_time :=
        Function.update g.last_send_time item.media_player (some now) },
     true)
  else (TTSPendingQueue_enqueue g item, false)

/-- One wake of `_poll_until_ready`'s loop (lines 61‑79): if the queue is
empty the task returns; otherwise, when the device is ready, the oldest item
is popped and sent.  A no-op when no task is live for the device. -/
def _poll_until_ready_iteration (g : TTSGateState) (mp : String)
    (device_state : Option String) (now : ℚ) : TTSGateState :=
  if g.poll_tasks mp = 0 then g
  else
    match g.queues mp with
    | [] =>
      { g with poll_tasks := Function.update g.poll_tasks mp (g.poll_tasks mp - 1) }
    | item :: rest =>
      if is_media_player_ready_for_tts device_state then
        { g with
            queues := Function.update g.queues mp rest,
            last_send_time := Function.update g.last_send_time mp (some now),
            dispatched := Function.update g.dispatched mp
              (g.dispatched mp ++ [item]) }
      else g

inductive TTSOp where
  | request (now : ℚ) (device_state : Option String) (min_interval : ℚ)
      (item : TTSItem)
  | pollWake (mp : String) (device_state : Option String) (now : ℚ)

def ttsGateStep (g : TTSGateState) : TTSOp → TTSGateState
  | .request now ds minI item => (async_send_tts_or_queue g now ds minI item).1
  | .pollWake mp ds now => _poll_until_ready_iteration g mp ds now

def ttsGateRun (g : TTSGateState) (ops : List TTSOp) : TTSGateState :=
  ops.foldl ttsGateStep g

/-! ## Live wattage read — `energy_monitor._get_power_value`
(lines 331‑354).  Host entity states are strings; attribute values are
numbers, strings or null.  `float()` is modelled on decimal literals. -/

inductive PyVal where
  | pNum (q : ℚ)
  | pStr (s : String)
  | pNull
deriving DecidableEq

/-- `s.startswith(pre)` (computed on the character lists). -/
def startsWithStr (s pre : String) : Bool :=
  pre.toList.isPrefixOf s.toList

/-- Strip surrounding whitespace from a character list (what `float` and
`str.strip` do to their argument). -/
def trimWs (cs : List Char) : List Char :=
  ((cs.dropWhile Char.isWhitespace).reverse.dropWhile Char.isWhitespace).reverse

/-- Digit-string value. -/
def digitsVal (cs : List Char) : ℕ :=
  cs.foldl (fun n c => n * 10 + (c.toNat - 48)) 0

/-- `float(s)` on decimal literals: optional sign, digits, optional
fractional part (Python additionally strips surrounding whitespace). -/
def parseFloatQ (s : String) : Option ℚ :=
  let cs := trimWs s.toList
  let sign : ℚ × List Char :=
    match cs with
    | '-' :: rest => (-1, rest)
    | '+' :: rest => (1, rest)
    | _ => (1, cs)
  let intPart := sign.2.takeWhile (fun c => c.isDigit)
  let rest := sign.2.dropWhile (fun c => c.isDigit)
  match rest with
  | [] =>
    if intPart.isEmpty then none
    else some (sign.1 * (digitsVal intPart : ℚ))
  | '.' :: frac =>
    if frac.all (fun c => c.isDigit) ∧ ¬(intPart.isEmpty ∧ frac.isEmpty) then
      some (sign.1 *
        ((digitsVal intPart : ℚ) + (digitsVal frac : ℚ) / (10 : ℚ) ^ frac.length))
    else none
  | _ => none

/-- `float(v)` on an attribute value (`float(None)` raises, caught to 0 by
the caller). -/
def pyFloat : PyVal → Option ℚ
  | .pNum q => some q
  | .pStr s => parseFloatQ s
  | .pNull => none

structure HAEntityState where
  state : String
  current_power_w : Option PyVal  -- the `current_power_w` attribute, if present

/-- `_get_power_value(entity_id)` over a snapshot of the entity registry
(`none` = entity missing). -/
def _get_power_value (states : String → Option HAEntityState)
    (entity_id : String) : ℚ :=
  match states entity_id with
  | none => 0
  | some st =>
    if startsWithStr entity_id "sensor." then
      if st.state ≠ "unknown" ∧ st.state ≠ "unavailable" ∧ st.state ≠ "" then
        (parseFloatQ st.state).getD 0
      else 0
    else if startsWithStr entity_id "switch." then
      (pyFloat (st.current_power_w.getD (PyVal.pNum 0))).getD 0
    else 0

/-! ## Concrete scenarios used as counterexamples and witnesses. -/

/-- One room ("Kitchen", id `kitchen`) with a single generic outlet read
from `sensor.k`. -/
def c2cfg : List RoomCfg :=
  [⟨some "kitchen", "Kitchen", [⟨"outlet", some "Desk", some "sensor.k", none⟩]⟩]

/-- Mid-day enforcement data for the kitchen: one warning on the books,
phase 1, some volume offset. -/
def c2room : EnforcementRoom := ⟨[(100, 2000)], 1, 4, some 100, []⟩

/-- A config-manager state on the evening of 2026-10-11: energy accumulated,
events counted, enforcement data present, all stamped with that date. -/
def c2state : CMState :=
  { day_energy := Function.update (fun _ => 0) "sensor.k" 120,
    last_reset_date := some "2026-10-11",
    last_power_update := fun _ => none,
    event_counts := ⟨3, 1, fun _ => 3, fun _ => 1⟩,
    event_counts_reset_date := some "2026-10-11",
    enforcement_state := Function.update (fun _ => none) "kitchen" (some c2room),
    enforcement_reset_date := some "2026-10-11",
    home_kwh_alert_sent := true,
    daily_totals := [] }

/-- Scenario B's stove: threshold 100 W, on-debounce 0 s, off-debounce
10 s, cooking duration 1 minute, final warning 30 s, presence start-window
10 s, shutoff enabled, switch and media player configured, no microwave. -/
def stoveScenarioCfg : StoveCfg :=
  ⟨100, 10, 0, 10, 1, 30, true, true, true, false, true, 50⟩

/-- The claim's scenario-B inputs: 1200 W continuously, presence absent on
every tick from t = 0. -/
def c6_inputs : List StoveInput :=
  (List.range 151).map (fun t => ⟨(t : ℤ), 1200, false, 0⟩)

/-- The amended scenario: presence detected on the tick the stove turns on
(t = 0) and absent from every tick thereafter. -/
def c6_amended_inputs : List StoveInput :=
  (List.range 102).map (fun t => ⟨(t : ℤ), 1200, t == 0, 0⟩)

/-- Ticks for the C5 counterexample: presence at t = 0, a countdown running
from t = 11, then at t = 20 the person returns exactly while the stove's
power momentarily dips to 50 W (below the 100 W threshold), and leaves
again; 1200 W and absence afterwards. -/
def c5_inputs : List StoveInput :=
  (List.range 102).map (fun t =>
    if t = 0 then ⟨0, 1200, true, 0⟩
    else if t = 20 then ⟨20, 50, true, 0⟩
    else ⟨(t : ℤ), 1200, false, 0⟩)

lemma whSum_nil (key : String) : whSum key [] = 0 := rfl

lemma whSum_cons (key : String) (r : String × ℚ × ℚ)
    (rest : List (String × ℚ × ℚ)) :
    whSum key (r :: rest)
      = (if r.1 = key then r.2.1 * r.2.2 / 3600 else 0) + whSum key rest := by
  by_cases h : r.1 = key <;> simp [whSum, List.filter_cons, h]

/-- Within a single date, `async_add_energy_reading` never resets and each
key accumulates exactly the sum of its own readings. -/
lemma runLedger_same_date (today : String) (s : LedgerState)
    (readings : List (String × ℚ × ℚ)) (h : s.last_reset_date = some today) :
    (runLedger today s readings).2 = 0 ∧
    ∀ k, (runLedger today s readings).1.day_energy k
      = s.day_energy k + whSum k readings := by
  induction readings generalizing s with
  | nil => simp [runLedger, whSum_nil]
  | cons r rest ih =>
    obtain ⟨k0, w, e⟩ := r
    have hne : ¬ (s.last_reset_date ≠ some today) := by simp [h]
    simp only [runLedger, async_add_energy_reading, if_neg hne]
    set s' : LedgerState :=
      { s with day_energy :=
          Function.update s.day_energy k0 (s.day_energy k0 + w * e / 3600) }
      with hs'
    have ih' := ih s' h
    refine ⟨by simpa using ih'.1, fun k => ?_⟩
    have h2 := ih'.2 k
    simp only [hs'] at h2
    rw [h2, whSum_cons]
    by_cases hk : k0 = k
    · subst hk
      simp [Function.update]
      ring
    · simp [Function.update, Ne.symm hk, hk]

/-- C1: for every entity key and every finite sequence of readings
`(watts_i, elapsed_i)` recorded within a single local calendar date, the
ledger's accumulated Wh for that key equals `Σ watts_i * elapsed_i / 3600`
(on top of the previous total when the stored date already matches); and when
the stored date differs from the current date, the first record call clears
the accumulated value to 0 exactly once before adding the new reading, while
same-date record calls never clear. -/
theorem C1_energy_ledger_accumulation (today : String) (s : LedgerState)
    (readings : List (String × ℚ × ℚ)) (key : String) :
    (s.last_reset_date = some today →
      (runLedger today s readings).2 = 0 ∧
      (runLedger today s readings).1.day_energy key
        = s.day_energy key + whSum key readings) ∧
    (s.last_reset_date ≠ some today → readings ≠ [] →
      (runLedger today s readings).2 = 1 ∧
      (runLedger today s readings).1.day_energy key = whSum key readings) := by
  constructor
  · intro h
    exact ⟨(runLedger_same_date today s readings h).1,
      (runLedger_same_date today s readings h).2 key⟩
  · intro hne hr
    match readings with
    | [] => exact absurd rfl hr
    | (k0, w, e) :: rest =>
      simp only [runLedger, async_add_energy_reading, if_pos hne]
      set s' : LedgerState :=
        { day_energy := Function.update (fun _ => 0) k0 ((fun _ : String => (0:ℚ)) k0 + w * e / 3600),
          last_reset_date := some today,
          last_power_update := fun _ => none } with hs'
      have hrest := runLedger_same_date today s' rest (by simp [hs'])
      refine ⟨by simpa using hrest.1, ?_⟩
      have h2 := hrest.2 key
      simp only [hs'] at h2
      rw [h2, whSum_cons]
      by_cases hk : k0 = key
      · subst hk
        simp [Function.update]
      · simp [Function.update, Ne.symm hk, hk]

/-- Witness for C1 at a concrete input: a stale stored date, three readings
on the new date (two for key `a`, one for `b`). -/
theorem C1_energy_ledger_accumulation_witness :
    (runLedger "2026-10-12" ⟨fun _ => 0, some "2026-10-11", fun _ => none⟩
      [("a", 3600, 1), ("a", 7200, 1), ("b", 60, 60)]).2 = 1 ∧
    (runLedger "2026-10-12" ⟨fun _ => 0, some "2026-10-11", fun _ => none⟩
      [("a", 3600, 1), ("a", 7200, 1), ("b", 60, 60)]).1.day_energy "a"
      = whSum "a" [("a", 3600, 1), ("a", 7200, 1), ("b", 60, 60)] :=
  (C1_energy_ledger_accumulation "2026-10-12"
    ⟨fun _ => 0, some "2026-10-11", fun _ => none⟩
    [("a", 3600, 1), ("a", 7200, 1), ("b", 60, 60)] "a").2
    (by decide) (by decide)

/-- C8: evaluation of `record_intraday_power` at the failing input.  After
`B` is sampled in minute `m1`, `A` in minute `m2`, and then `B` in minute
`m2`, entity `B`'s history is `[("m2", 3)]`: its first minute-`m2` record
overwrote its minute-`m1` sample (because the same-minute check uses the
module-wide `_intraday_last_minute`, already advanced to `m2` by `A`'s
record), instead of appending and leaving `[("m1", 1), ("m2", 3)]`. -/
theorem C8_intraday_overwrites_prior_minute :
    (runIntraday initIntraday (c8_samples.take 1)).intraday_history "B"
      = some [("m1", 1)] ∧
    (runIntraday initIntraday c8_samples).intraday_history "B"
      = some [("m2", 3)] := by
  constructor <;> decide

/-- C2 counterexample: running the rollover on the morning of 2026-10-12
produces a reachable state in which the live ledger is cleared and today's
event counts are zeroed (both stamped 2026-10-12), while the per-room
enforcement store still holds 2026-10-11's kitchen data (warning list,
phase 1, volume offset) under the old reset date — the rollover operation
itself never touches the enforcement store, which is only cleared lazily by
`_ensure_enforcement_state_for_today` on its next access.  This contradicts
the claim that no reachable state has some of the three stores cleared for
the new date while another still holds the previous day's data. -/
theorem C2_rollover_leaves_enforcement_counterexample :
    (async_snapshot_day_and_reset_if_rolled_over c2cfg "2026-10-12"
      c2state).day_energy "sensor.k" = 0 ∧
    (async_snapshot_day_and_reset_if_rolled_over c2cfg "2026-10-12"
      c2state).last_reset_date = some "2026-10-12" ∧
    (async_snapshot_day_and_reset_if_rolled_over c2cfg "2026-10-12"
      c2state).event_counts.total_warnings = 0 ∧
    (async_snapshot_day_and_reset_if_rolled_over c2cfg "2026-10-12"
      c2state).event_counts.room_warnings "kitchen" = 0 ∧
    (async_snapshot_day_and_reset_if_rolled_over c2cfg "2026-10-12"
      c2state).event_counts_reset_date = some "2026-10-12" ∧
    (async_snapshot_day_and_reset_if_rolled_over c2cfg "2026-10-12"
      c2state).enforcement_state "kitchen" = some c2room ∧
    (async_snapshot_day_and_reset_if_rolled_over c2cfg "2026-10-12"
      c2state).enforcement_reset_date = some "2026-10-11" := by
  refine ⟨?_, ?_, ?_, ?_, ?_, ?_, ?_⟩ <;> decide

/-- C2 (amended): on rollover the live ledger and today's event counts are
cleared together (in the same synchronous step, both stamped with the new
date), but the per-room enforcement state is not touched by the rollover;
it is cleared separately and lazily by the first
`_ensure_enforcement_state_for_today` on the new date, so every read path
(which date-checks first) observes it cleared even though the store itself
still holds the previous day's data immediately after rollover. -/
theorem C2_rollover_clears_ledger_and_counts (cfg : List RoomCfg)
    (today od : String) (s s' : CMState)
    (hs' : s' = async_snapshot_day_and_reset_if_rolled_over cfg today s)
    (h1 : s.last_reset_date = some od) (h2 : od ≠ "") (h3 : od ≠ today) :
    (∀ k, s'.day_energy k = 0) ∧
    s'.event_counts.total_warnings = 0 ∧
    s'.event_counts.total_shutoffs = 0 ∧
    (∀ r, s'.event_counts.room_warnings r = 0 ∧
      s'.event_counts.room_shutoffs r = 0) ∧
    s'.last_reset_date = some today ∧
    s'.event_counts_reset_date = some today ∧
    s'.enforcement_state = s.enforcement_state ∧
    s'.enforcement_reset_date = s.enforcement_reset_date ∧
    (∀ r, (_ensure_enforcement_state_for_today today s').enforcement_state r
        = if s.enforcement_reset_date = some today
          then s.enforcement_state r else none) := by
  have hguard : ¬ (od = "" ∨ od = today) := by
    rintro (h | h)
    · exact h2 h
    · exact h3 h
  have hu : ∃ dt, async_snapshot_day_and_reset_if_rolled_over cfg today s =
      { s with
          daily_totals := dt,
          day_energy := fun _ => 0,
          last_reset_date := some today,
          last_power_update := fun _ => none,
          event_counts := zeroEventCounts,
          event_counts_reset_date := some today } := by
    exact ⟨_, by
      simp only [async_snapshot_day_and_reset_if_rolled_over, pyOrOpt, h1,
        if_neg h2, if_neg hguard]
      rfl⟩
  obtain ⟨dt, hdt⟩ := hu
  subst hs'
  rw [hdt]
  refine ⟨fun k => rfl, rfl, rfl, fun r => ⟨rfl, rfl⟩, rfl, rfl, rfl, rfl, ?_⟩
  intro r
  by_cases hd : s.enforcement_reset_date = some today
  · simp [_ensure_enforcement_state_for_today, hd]
  · simp [_ensure_enforcement_state_for_today, hd]

/-- Witness for C2 (amended) at the concrete 2026-10-11 → 2026-10-12
rollover. -/
theorem C2_rollover_clears_ledger_and_counts_witness :
    (async_snapshot_day_and_reset_if_rolled_over c2cfg "2026-10-12"
      c2state).day_energy "sensor.k" = 0 ∧
    (_ensure_enforcement_state_for_today "2026-10-12"
      (async_snapshot_day_and_reset_if_rolled_over c2cfg "2026-10-12"
        c2state)).enforcement_state "kitchen"
      = if c2state.enforcement_reset_date = some "2026-10-12"
        then c2state.enforcement_state "kitchen" else none := by
  have h := C2_rollover_clears_ledger_and_counts c2cfg "2026-10-12"
    "2026-10-11" c2state _ rfl rfl (by decide) (by decide)
  exact ⟨h.1 "sensor.k", h.2.2.2.2.2.2.2.2 "kitchen"⟩

lemma record_warning_phase (now : ℤ) (w : ℚ) (st : EnforcementRoom) :
    (async_record_threshold_warning now w st).phase = st.phase := rfl

lemma set_phase_phase (now : ℤ) (p : ℕ) (st : EnforcementRoom) :
    (async_set_enforcement_phase now p st).phase = p := by
  unfold async_set_enforcement_phase
  split_ifs with h
  all_goals simp_all

lemma inc_volume_phase (i m : ℕ) (st : EnforcementRoom) :
    (async_increment_volume_offset i m st).phase = st.phase := rfl

/-- C3: on a room-warning event the enforcement phase never decreases (the
only path back to 0 is the separate quiet-period reset), and with the
phase-2 check evaluated before phase-1, a room in phase 0 whose counts
satisfy both triggers on the same event (both phases enabled) escalates
directly to phase 2. -/
theorem C3_phase_monotone_and_direct_escalation (pe : PowerEnforcementCfg)
    (hm : Bool) (now : ℤ) (watts : ℚ) (s : RoomAlertState) :
    s.enf.phase ≤ ((_send_room_alert pe hm now watts s).1).enf.phase ∧
    (hm = true → pe.enforcement_enabled = true → pe.phase2_enabled = true →
      pe.phase1_enabled = true → s.enf.phase = 0 →
      pe.phase2_warning_count ≤ get_warnings_in_window now
        pe.phase2_time_window_minutes
        (async_record_threshold_warning now watts s.enf) →
      pe.phase1_warning_count ≤ get_warnings_in_window now
        pe.phase1_time_window_minutes
        (async_record_threshold_warning now watts s.enf) →
      ((_send_room_alert pe hm now watts s).1).enf.phase = 2) := by
  constructor
  · by_cases hhm : hm = false
    · simp [_send_room_alert, hhm]
    · simp only [_send_room_alert, if_neg hhm]
      split_ifs <;>
        simp_all [record_warning_phase, inc_volume_phase, set_phase_phase,
          async_increment_volume_offset, async_record_threshold_warning] <;>
        omega
  · intro hhm he h2e h1e hp0 hw2 hw1
    have hpt : (pe.enforcement_enabled &&
        ((pe.phase2_enabled &&
            decide (pe.phase2_warning_count ≤ get_warnings_in_window now
              pe.phase2_time_window_minutes
              (async_record_threshold_warning now watts s.enf)) &&
            decide ((async_record_threshold_warning now watts s.enf).phase < 2)) ||
         (pe.phase1_enabled &&
            decide (pe.phase1_warning_count ≤ get_warnings_in_window now
              pe.phase1_time_window_minutes
              (async_record_threshold_warning now watts s.enf)) &&
            decide ((async_record_threshold_warning now watts s.enf).phase < 1)))) = true := by
      simp [he, h2e, hw2, record_warning_phase, hp0]
    simp only [_send_room_alert, hhm, Bool.true_eq_false, if_neg, if_false,
      reduceIte, hpt, Bool.not_true, Bool.false_and, Bool.and_self]
    simp only [he, if_true]
    have hcond : (pe.phase2_enabled &&
        decide (pe.phase2_warning_count ≤ get_warnings_in_window now
          pe.phase2_time_window_minutes
          (async_record_threshold_warning now watts s.enf)) &&
        decide ((async_record_threshold_warning now watts s.enf).phase < 2)) = true := by
      simp [h2e, hw2, record_warning_phase, hp0]
    simp only [hcond, if_true]
    simp [inc_volume_phase, set_phase_phase]

/-- Witness for C3: with both triggers at count 1 and phases enabled, a
fresh room in phase 0 jumps straight to phase 2 on its first warning. -/
theorem C3_phase_monotone_and_direct_escalation_witness :
    ((_send_room_alert ⟨true, true, true, 1, 60, 1, 30, 2⟩ true 0 2000
      ⟨freshEnforcementRoom, none⟩).1).enf.phase = 2 :=
  (C3_phase_monotone_and_direct_escalation ⟨true, true, true, 1, 60, 1, 30, 2⟩
      true 0 2000 ⟨freshEnforcementRoom, none⟩).2
    rfl rfl rfl rfl rfl (by decide) (by decide)

lemma send_room_alert_lastAlert_announced (pe : PowerEnforcementCfg)
    (hm : Bool) (now : ℤ) (w : ℚ) (s : RoomAlertState)
    (h : (_send_room_alert pe hm now w s).2.1 = true) :
    ((_send_room_alert pe hm now w s).1).last_room_alert = some now := by
  by_cases hhm : hm = false
  · simp [_send_room_alert, hhm] at h
  · simp only [_send_room_alert, if_neg hhm] at h ⊢
    split_ifs at h ⊢
    all_goals first | rfl | (exfalso; simp at h)

lemma send_room_alert_lastAlert_not_announced (pe : PowerEnforcementCfg)
    (hm : Bool) (now : ℤ) (w : ℚ) (s : RoomAlertState)
    (h : (_send_room_alert pe hm now w s).2.1 = false) :
    ((_send_room_alert pe hm now w s).1).last_room_alert
      = s.last_room_alert := by
  by_cases hhm : hm = false
  · simp [_send_room_alert, hhm]
  · simp only [_send_room_alert, if_neg hhm] at h ⊢
    split_ifs at h ⊢
    all_goals first | rfl | (exfalso; simp at h)

lemma send_room_alert_gap (pe : PowerEnforcementCfg) (hm : Bool) (now : ℤ)
    (w : ℚ) (s : RoomAlertState) (t0 : ℤ)
    (hlast : s.last_room_alert = some t0)
    (hann : (_send_room_alert pe hm now w s).2.1 = true)
    (hpt : (_send_room_alert pe hm now w s).2.2 = false) :
    ALERT_COOLDOWN ≤ now - t0 := by
  by_cases hhm : hm = false
  · simp [_send_room_alert, hhm] at hann
  · simp only [_send_room_alert, if_neg hhm] at hann hpt
    by_cases hc : ((!(pe.enforcement_enabled &&
          (pe.phase2_enabled &&
              decide (pe.phase2_warning_count ≤
                get_warnings_in_window now pe.phase2_time_window_minutes
                  (async_record_threshold_warning now w s.enf)) &&
              decide ((async_record_threshold_warning now w s.enf).phase < 2) ||
           pe.phase1_enabled &&
              decide (pe.phase1_warning_count ≤
                get_warnings_in_window now pe.phase1_time_window_minutes
                  (async_record_threshold_warning now w s.enf)) &&
              decide ((async_record_threshold_warning now w s.enf).phase < 1)))) &&
        (match s.last_room_alert with
         | some t => decide (now - t < ALERT_COOLDOWN)
         | none => false)) = true
    · rw [if_pos hc] at hann
      simp at hann
    · rw [if_neg hc] at hpt
      have hEf : (pe.enforcement_enabled &&
          (pe.phase2_enabled &&
              decide (pe.phase2_warning_count ≤
                get_warnings_in_window now pe.phase2_time_window_minutes
                  (async_record_threshold_warning now w s.enf)) &&
              decide ((async_record_threshold_warning now w s.enf).phase < 2) ||
           pe.phase1_enabled &&
              decide (pe.phase1_warning_count ≤
                get_warnings_in_window now pe.phase1_time_window_minutes
                  (async_record_threshold_warning now w s.enf)) &&
              decide ((async_record_threshold_warning now w s.enf).phase < 1))) = false := hpt
      rw [hlast] at hc
      rw [hEf] at hc
      simp only [Bool.not_false, Bool.true_and, decide_eq_true_eq] at hc
      exact not_lt.mp hc

lemma runRoomAlerts_gap (pe : PowerEnforcementCfg) (hm : Bool) :
    ∀ (es : List (ℤ × ℚ)) (s : RoomAlertState) (t0 : ℤ),
      s.last_room_alert = some t0 →
      (∀ e ∈ es, t0 ≤ e.1) →
      List.Pairwise (fun x y => x ≤ y) (es.map Prod.fst) →
      ∀ o ∈ (runRoomAlerts pe hm s es).2, o.2.1 = true → o.2.2 = false →
        t0 + ALERT_COOLDOWN ≤ o.1 := by
  intro es
  induction es with
  | nil =>
    intro s t0 _ _ _ o ho
    simp [runRoomAlerts] at ho
  | cons e rest ih =>
    intro s t0 hlast hbound hpw o ho hann hpt
    obtain ⟨t, w⟩ := e
    have ht0t : t0 ≤ t := hbound (t, w) (by simp)
    have hpw' : List.Pairwise (fun x y => x ≤ y) (rest.map Prod.fst) := by
      rw [List.map_cons] at hpw
      exact hpw.of_cons
    have hhead : ∀ b ∈ rest.map Prod.fst, t ≤ b := by
      rw [List.map_cons] at hpw
      exact (List.pairwise_cons.mp hpw).1
    simp only [runRoomAlerts, List.mem_cons] at ho
    rcases ho with ho | ho
    · subst ho
      simp only at hann hpt
      have hgap := send_room_alert_gap pe hm t w s t0 hlast hann hpt
      simp only
      linarith
    · by_cases hann0 : (_send_room_alert pe hm t w s).2.1 = true
      · have hl1 := send_room_alert_lastAlert_announced pe hm t w s hann0
        have hb : ∀ e' ∈ rest, t ≤ e'.1 := by
          intro e' he'
          exact hhead e'.1 (List.mem_map_of_mem Prod.fst he')
        have := ih ((_send_room_alert pe hm t w s).1) t hl1 hb hpw' o ho hann hpt
        linarith
      · have hann0' : (_send_room_alert pe hm t w s).2.1 = false :=
          Bool.eq_false_iff.mpr hann0
        have hl1 := send_room_alert_lastAlert_not_announced pe hm t w s hann0'
        have hb : ∀ e' ∈ rest, t0 ≤ e'.1 := by
          intro e' he'
          exact hbound e' (List.mem_cons_of_mem _ he')
        exact ih ((_send_room_alert pe hm t w s).1) t0 (by rw [hl1, hlast])
          hb hpw' o ho hann hpt

lemma runRoomAlerts_split_gap (pe : PowerEnforcementCfg) (hm : Bool) :
    ∀ (es : List (ℤ × ℚ)) (s0 : RoomAlertState)
      (l1 l2 l3 : List (ℤ × Bool × Bool)) (a b : ℤ × Bool × Bool),
      List.Pairwise (fun x y => x ≤ y) (es.map Prod.fst) →
      (runRoomAlerts pe hm s0 es).2 = l1 ++ a :: (l2 ++ b :: l3) →
      a.2.1 = true → b.2.1 = true → b.2.2 = false →
      a.1 + ALERT_COOLDOWN ≤ b.1 := by
  intro es
  induction es with
  | nil =>
    intro s0 l1 l2 l3 a b _ hsplit _ _ _
    simp [runRoomAlerts] at hsplit
  | cons e rest ih =>
    intro s0 l1 l2 l3 a b hpw hsplit ha hb hbp
    obtain ⟨t, w⟩ := e
    have hpw' : List.Pairwise (fun x y => x ≤ y) (rest.map Prod.fst) := by
      rw [List.map_cons] at hpw
      exact hpw.of_cons
    have hhead : ∀ c ∈ rest.map Prod.fst, t ≤ c := by
      rw [List.map_cons] at hpw
      exact (List.pairwise_cons.mp hpw).1
    simp only [runRoomAlerts] at hsplit
    cases l1 with
    | nil =>
      rw [List.nil_append] at hsplit
      have haeq : (t, (_send_room_alert pe hm t w s0).2.1,
          (_send_room_alert pe hm t w s0).2.2) = a := (List.cons.inj hsplit).1
      have htail : (runRoomAlerts pe hm ((_send_room_alert pe hm t w s0).1)
          rest).2 = l2 ++ b :: l3 := (List.cons.inj hsplit).2
      have hann_a : (_send_room_alert pe hm t w s0).2.1 = true := by
        rw [← haeq] at ha
        simpa using ha
      have hl1 := send_room_alert_lastAlert_announced pe hm t w s0 hann_a
      have hbmem : b ∈ (runRoomAlerts pe hm
          ((_send_room_alert pe hm t w s0).1) rest).2 := by
        rw [htail]
        simp
      have hbb : ∀ e' ∈ rest, t ≤ e'.1 := by
        intro e' he'
        exact hhead e'.1 (List.mem_map_of_mem Prod.fst he')
      have hgap := runRoomAlerts_gap pe hm rest
        ((_send_room_alert pe hm t w s0).1) t hl1 hbb hpw' b hbmem hb hbp
      have hat : a.1 = t := by rw [← haeq]
      rw [hat]
      exact hgap
    | cons x l1' =>
      rw [List.cons_append] at hsplit
      have htail : (runRoomAlerts pe hm ((_send_room_alert pe hm t w s0).1)
          rest).2 = l1' ++ a :: (l2 ++ b :: l3) := (List.cons.inj hsplit).2
      exact ih ((_send_room_alert pe hm t w s0).1) l1' l2 l3 a b hpw' htail
        ha hb hbp

/-- C4: for a room evaluated through `_send_room_alert`, any two announced
warnings — writing the run's outputs as `l1 ++ a :: (l2 ++ b :: l3)` with
`a` announced before `b` — are at least `ALERT_COOLDOWN` (60 s) apart
whenever the later one was not a phase-transition event; and on an event
whose phase-transition flag is set the warning is always announced, even
inside the cooldown window. -/
theorem C4_room_warning_cooldown (pe : PowerEnforcementCfg) (hm : Bool) :
    (∀ (es : List (ℤ × ℚ)) (s0 : RoomAlertState)
      (l1 l2 l3 : List (ℤ × Bool × Bool)) (a b : ℤ × Bool × Bool),
      List.Pairwise (fun x y => x ≤ y) (es.map Prod.fst) →
      (runRoomAlerts pe hm s0 es).2 = l1 ++ a :: (l2 ++ b :: l3) →
      a.2.1 = true → b.2.1 = true → b.2.2 = false →
      a.1 + ALERT_COOLDOWN ≤ b.1) ∧
    (∀ (now : ℤ) (watts : ℚ) (s : RoomAlertState), hm = true →
      (_send_room_alert pe hm now watts s).2.2 = true →
      (_send_room_alert pe hm now watts s).2.1 = true) := by
  constructor
  · intro es s0 l1 l2 l3 a b hpw hsplit ha hb hbp
    exact runRoomAlerts_split_gap pe hm es s0 l1 l2 l3 a b hpw hsplit ha hb hbp
  · intro now watts s hhm hpt
    have hnot : ¬(hm = false) := by rw [hhm]; simp
    simp only [_send_room_alert, if_neg hnot] at hpt ⊢
    by_cases hc : ((!(pe.enforcement_enabled &&
          (pe.phase2_enabled &&
              decide (pe.phase2_warning_count ≤
                get_warnings_in_window now pe.phase2_time_window_minutes
                  (async_record_threshold_warning now watts s.enf)) &&
              decide ((async_record_threshold_warning now watts s.enf).phase < 2) ||
           pe.phase1_enabled &&
              decide (pe.phase1_warning_count ≤
                get_warnings_in_window now pe.phase1_time_window_minutes
                  (async_record_threshold_warning now watts s.enf)) &&
              decide ((async_record_threshold_warning now watts s.enf).phase < 1)))) &&
        (match s.last_room_alert with
         | some t => decide (now - t < ALERT_COOLDOWN)
         | none => false)) = true
    · rw [if_pos hc] at hpt
      have hE : (pe.enforcement_enabled &&
          (pe.phase2_enabled &&
              decide (pe.phase2_warning_count ≤
                get_warnings_in_window now pe.phase2_time_window_minutes
                  (async_record_threshold_warning now watts s.enf)) &&
              decide ((async_record_threshold_warning now watts s.enf).phase < 2) ||
           pe.phase1_enabled &&
              decide (pe.phase1_warning_count ≤
                get_warnings_in_window now pe.phase1_time_window_minutes
                  (async_record_threshold_warning now watts s.enf)) &&
              decide ((async_record_threshold_warning now watts s.enf).phase < 1))) = true := hpt
      rw [hE] at hc
      simp at hc
    · rw [if_neg hc]

/-- Witness for C4: with enforcement disabled, warnings at t = 0 and
t = 100 are both announced and lie a full cooldown apart. -/
theorem C4_room_warning_cooldown_witness :
    (0 : ℤ) + ALERT_COOLDOWN ≤ (100 : ℤ) :=
  (C4_room_warning_cooldown ⟨false, true, true, 20, 60, 40, 30, 2⟩ true).1
    [(0, 100), (100, 100)] ⟨freshEnforcementRoom, none⟩
    [] [] [] (0, true, false) (100, true, false)
    (by decide) (by decide) rfl rfl rfl

/-- C10 counterexample: one warning recorded at t = 0 s survives its own
prune; queried 70 minutes later (t = 4200 s), a 120-minute window counts it
while the 60-minute window does not, so "for any window length w > 60
minutes the count in the window equals the count in the last 60 minutes" is
false as stated. -/
theorem C10_window_counterexample :
    get_warnings_in_window 4200 120
      (async_record_threshold_warning 0 100 freshEnforcementRoom) = 1 ∧
    get_warnings_in_window 4200 60
      (async_record_threshold_warning 0 100 freshEnforcementRoom) = 0 := by
  constructor <;> decide

/-- C10 (amended): every `async_record_threshold_warning` call prunes the
room's warning list to events within the last 60 minutes of the record time,
independently of the configured windows; consequently, whenever that prune
invariant holds at the query time (in particular when querying at the moment
of the last record, as `_send_room_alert` does), any window of length
w ≥ 60 minutes counts exactly the stored warnings — the same as the
60-minute window. -/
theorem C10_prune_bounds_windows (now : ℤ) (watts : ℚ) (qnow : ℤ)
    (st st' : EnforcementRoom) (w : ℤ) :
    (∀ p ∈ (async_record_threshold_warning now watts st).warnings,
      now - 3600 ≤ p.1) ∧
    (60 ≤ w → (∀ p ∈ st'.warnings, qnow - 3600 ≤ p.1) →
      get_warnings_in_window qnow w st' = st'.warnings.length ∧
      get_warnings_in_window qnow w st'
        = get_warnings_in_window qnow 60 st') := by
  constructor
  · intro p hp
    simp only [async_record_threshold_warning, List.mem_filter] at hp
    exact of_decide_eq_true hp.2
  · intro hw hinv
    have hall : ∀ p ∈ st'.warnings, decide (qnow - w * 60 ≤ p.1) = true := by
      intro p hp
      have := hinv p hp
      exact decide_eq_true (by nlinarith)
    have hall60 : ∀ p ∈ st'.warnings,
        decide (qnow - (60 : ℤ) * 60 ≤ p.1) = true := by
      intro p hp
      have := hinv p hp
      exact decide_eq_true (by linarith)
    constructor
    · simp only [get_warnings_in_window]
      rw [List.filter_eq_self.mpr hall]
    · simp only [get_warnings_in_window]
      rw [List.filter_eq_self.mpr hall, List.filter_eq_self.mpr hall60]

/-- Witness for C10 (amended): querying at the record time itself, a
120-minute window and the 60-minute window both count the single stored
warning. -/
theorem C10_prune_bounds_windows_witness :
    get_warnings_in_window 0 120
      (async_record_threshold_warning 0 100 freshEnforcementRoom)
      = (async_record_threshold_warning 0 100 freshEnforcementRoom).warnings.length ∧
    get_warnings_in_window 0 120
      (async_record_threshold_warning 0 100 freshEnforcementRoom)
      = get_warnings_in_window 0 60
          (async_record_threshold_warning 0 100 freshEnforcementRoom) :=
  (C10_prune_bounds_windows 0 100 0 freshEnforcementRoom
      (async_record_threshold_warning 0 100 freshEnforcementRoom) 120).2
    (by decide) (by decide)

/-- C9: `_get_power_value` is total with value 0 on every failure mode: the
entity missing; a sensor reporting unknown/unavailable/empty or a
non-numeric state; a switch whose `current_power_w` attribute is missing or
non-numeric; and any entity that is neither a sensor nor a switch. -/
theorem C9_get_power_value_fallbacks
    (states : String → Option HAEntityState) (entity_id : String) :
    (states entity_id = none → _get_power_value states entity_id = 0) ∧
    (∀ st, states entity_id = some st →
      startsWithStr entity_id "sensor." = true →
      (st.state = "unknown" ∨ st.state = "unavailable" ∨ st.state = "" ∨
        parseFloatQ st.state = none) →
      _get_power_value states entity_id = 0) ∧
    (∀ st, states entity_id = some st →
      startsWithStr entity_id "sensor." = false →
      startsWithStr entity_id "switch." = true →
      (st.current_power_w = none ∨
        ∃ v, st.current_power_w = some v ∧ pyFloat v = none) →
      _get_power_value states entity_id = 0) ∧
    (∀ st, states entity_id = some st →
      startsWithStr entity_id "sensor." = false →
      startsWithStr entity_id "switch." = false →
      _get_power_value states entity_id = 0) := by
  refine ⟨fun h => by simp [_get_power_value, h], ?_, ?_, ?_⟩
  · intro st hst hpre hbad
    simp only [_get_power_value, hst, hpre, if_true]
    rcases hbad with h | h | h | h
    · simp [h]
    · simp [h]
    · simp [h]
    · by_cases hu : st.state ≠ "unknown" ∧ st.state ≠ "unavailable" ∧ st.state ≠ ""
      · simp [hu, h]
      · simp [hu]
  · intro st hst hs hw hbad
    simp only [_get_power_value, hst, hs, hw, Bool.false_eq_true, if_false,
      if_true]
    rcases hbad with h | ⟨v, hv, hnone⟩
    · simp [h, pyFloat]
    · simp [hv, hnone]
  · intro st hst hs hw
    simp [_get_power_value, hst, hs, hw]

/-- Witness for C9: a missing entity, an unavailable sensor, a switch with a
non-numeric power attribute, and a light entity all read as 0 W. -/
theorem C9_get_power_value_fallbacks_witness :
    _get_power_value
      (fun eid =>
        if eid = "sensor.a" then some ⟨"unavailable", none⟩
        else if eid = "switch.b" then some ⟨"on", some (PyVal.pStr "abc")⟩
        else if eid = "light.c" then some ⟨"on", none⟩
        else none) "sensor.a" = 0 ∧
    _get_power_value
      (fun eid =>
        if eid = "sensor.a" then some ⟨"unavailable", none⟩
        else if eid = "switch.b" then some ⟨"on", some (PyVal.pStr "abc")⟩
        else if eid = "light.c" then some ⟨"on", none⟩
        else none) "switch.b" = 0 := by
  constructor
  · exact (C9_get_power_value_fallbacks _ "sensor.a").2.1 ⟨"unavailable", none⟩
      (by simp) (by decide) (Or.inr (Or.inl rfl))
  · exact (C9_get_power_value_fallbacks _ "switch.b").2.2.1 ⟨"on", some (PyVal.pStr "abc")⟩
      (by simp) (by decide) (by decide)
      (Or.inr ⟨PyVal.pStr "abc", rfl, by decide⟩)

set_option maxRecDepth 100000 in
/-- C6 counterexample: with presence absent on every tick from t = 0 (and
never detected before), the only event the stove machine ever emits over
150 s of continuous 1200 W draw is the "on" announcement at t = 0 — no
"timer started" at t = 10, no warnings at t = 70/100, no shutoff: the
start-window only opens when the last observed presence while the stove ran
was "detected" (`_stove_last_presence == "on"`), which never happens in this
trace. -/
theorem C6_scenario_counterexample :
    (runStove stoveScenarioCfg initStoveState c6_inputs).2
      = [((0 : ℤ), StoveEvent.stoveOn)] := by decide

set_option maxRecDepth 100000 in
/-- C6 (amended): same configuration, but presence is detected on the tick
the stove turns on (t = 0) and absent from t = 1 on — the earliest trace
satisfying the machine's prior-presence precondition.  Then: "on" at t = 0,
the absence window runs t = 1..11, "timer started" at t = 11, the
cooking-time warning at t = 71 (11 + 60), the final warning at t = 101
(71 + 30) immediately followed by the switch turn-off and the auto-off
announcement, and the countdown state is reset to "none". -/
theorem C6_scenario_amended :
    (runStove stoveScenarioCfg initStoveState c6_amended_inputs).2 =
      [((0 : ℤ), StoveEvent.stoveOn), (11, StoveEvent.timerStarted),
       (71, StoveEvent.warn15min), (101, StoveEvent.warn30sec),
       (101, StoveEvent.stoveSwitchOff), (101, StoveEvent.stoveAutoOffMsg)] ∧
    (runStove stoveScenarioCfg initStoveState c6_amended_inputs).1.timer_phase
      = StovePhase.phNone ∧
    (runStove stoveScenarioCfg initStoveState c6_amended_inputs).1.timer_start
      = none := by
  refine ⟨?_, ?_, ?_⟩ <;> decide

set_option maxRecDepth 100000 in
/-- C5 counterexample: presence IS detected at t = 20 — a tick on which the
stove's measured power momentarily dips to 50 W — while the unattended
countdown (started at t = 11) is in its cooking-window phase, well before
the final warning.  Because the presence branch only runs while the
instantaneous power exceeds the threshold (`if not stove_is_on: continue`),
the countdown is not cancelled: after the t = 20 tick it is still in the
cooking-window phase, and the machine later de-energizes the stove at
t = 101 from that same countdown. -/
theorem C5_presence_during_dip_counterexample :
    c5_inputs.contains ⟨20, 50, true, 0⟩ = true ∧
    (runStove stoveScenarioCfg initStoveState (c5_inputs.take 21)).1.timer_phase
      = StovePhase.ph15min ∧
    ((runStove stoveScenarioCfg initStoveState c5_inputs).2.filter
      (fun e => e.2 == StoveEvent.stoveSwitchOff))
      = [((101 : ℤ), StoveEvent.stoveSwitchOff)] := by
  refine ⟨?_, ?_, ?_⟩ <;> decide

lemma stove_debounce_events (c : StoveCfg) (i : StoveInput) (s0 : StoveState) :
    ∀ e ∈ (stove_debounce_step c i s0).2,
      e.2 = StoveEvent.stoveOn ∨ e.2 = StoveEvent.stoveOff := by
  intro e he
  simp only [stove_debounce_step] at he
  split_ifs at he <;> simp_all

lemma stove_debounce_timer (c : StoveCfg) (i : StoveInput) (s0 : StoveState) :
    ((stove_debounce_step c i s0).1.timer_phase = s0.timer_phase ∧
     (stove_debounce_step c i s0).1.timer_start = s0.timer_start) ∨
    ((stove_debounce_step c i s0).1.timer_phase = StovePhase.phNone ∧
     (stove_debounce_step c i s0).1.timer_start = none) := by
  simp only [stove_debounce_step]
  split_ifs <;> simp

lemma stove_window_events (c : StoveCfg) (i : StoveInput) (s1 : StoveState) :
    ∀ e ∈ (stove_window_step c i s1).2, e.2 = StoveEvent.timerStarted := by
  intro e he
  simp only [stove_window_step] at he
  repeat' split at he
  all_goals simp_all

lemma stove_countdown_no_switchOff (c : StoveCfg) (i : StoveInput)
    (s4 : StoveState) (hs : c.stove_safety_enabled = false) :
    ∀ e ∈ (stove_countdown_step c i s4).2,
      e.2 ≠ StoveEvent.stoveSwitchOff := by
  intro e he
  simp only [stove_countdown_step] at he
  repeat' split at he
  all_goals simp_all

lemma stove_presence_reset_state (s1 : StoveState)
    (hinv : s1.timer_phase = StovePhase.phNone → s1.timer_start = none) :
    (stove_presence_reset s1).timer_phase = StovePhase.phNone ∧
    (stove_presence_reset s1).timer_start = none ∧
    (stove_presence_reset s1).presence_window_start = none := by
  simp only [stove_presence_reset]
  split_ifs with h
  · simp
  · have hph : s1.timer_phase = StovePhase.phNone := by simpa using h
    exact ⟨hph, hinv hph, rfl⟩

lemma stoveDeviceStep_no_switchOff_of_safety_disabled (c : StoveCfg)
    (i : StoveInput) (s : StoveState)
    (hs : c.stove_safety_enabled = false) :
    ∀ e ∈ (stoveDeviceStep c i s).2, e.2 ≠ StoveEvent.stoveSwitchOff := by
  intro e he
  simp only [stoveDeviceStep] at he
  split_ifs at he
  · simp at he
  · rcases stove_debounce_events c i s e he with h | h <;> simp [h]
  · have he2 : e ∈ ((stove_debounce_step c i s).2 ++
        (stove_window_step c i ((stove_debounce_step c i s).1)).2) ++
          (stove_countdown_step c i
            ((stove_window_step c i ((stove_debounce_step c i s).1)).1)).2 := he
    simp only [List.mem_append] at he2
    rcases he2 with (he2 | he2) | he2
    · rcases stove_debounce_events c i s e he2 with h | h <;> simp [h]
    · have := stove_window_events c i ((stove_debounce_step c i s).1) e he2
      simp [this]
    · exact stove_countdown_no_switchOff c i
        ((stove_window_step c i ((stove_debounce_step c i s).1)).1) hs e he2
  · rcases stove_debounce_events c i s e he with h | h <;> simp [h]

lemma stoveTick_no_switchOff_of_safety_disabled (c : StoveCfg)
    (i : StoveInput) (s : StoveState)
    (hs : c.stove_safety_enabled = false) :
    ∀ e ∈ (stoveTick c i s).2, e.2 ≠ StoveEvent.stoveSwitchOff := by
  intro e he
  simp only [stoveTick, List.mem_append] at he
  rcases he with he | he
  · simp only [microwaveInterlockStep] at he
    split_ifs at he <;> simp_all
  · exact stoveDeviceStep_no_switchOff_of_safety_disabled c i
      ((microwaveInterlockStep c i s).1) hs e he

lemma runStove_no_switchOff_of_safety_disabled (c : StoveCfg)
    (hs : c.stove_safety_enabled = false) :
    ∀ (inputs : List StoveInput) (s : StoveState),
      ∀ e ∈ (runStove c s inputs).2, e.2 ≠ StoveEvent.stoveSwitchOff := by
  intro inputs
  induction inputs with
  | nil => intro s e he; simp [runStove] at he
  | cons i rest ih =>
    intro s e he
    simp only [runStove, List.mem_append] at he
    rcases he with he | he
    · exact stoveTick_no_switchOff_of_safety_disabled c i s hs e he
    · exact ih _ e he

/-- C5 (amended): (1) presence detected on a tick on which the stove's
measured power is above the threshold (so the stove logic runs — the
microwave-suppressed case aside) cancels the countdown back to the "none"
phase with the timer and start-window cleared, and no stove turn-off is
emitted on that tick; (2) with `stove_safety_enabled` false, no run of any
length from any state ever emits a turn-off for the stove switch. -/
theorem C5_presence_cancels_and_safety_off_never_cuts :
    (∀ (c : StoveCfg) (i : StoveInput) (s : StoveState),
      i.presence = true → s.powered_off_by_microwave = false →
      (c.stove_power_threshold : ℚ) < i.power →
      (s.timer_phase = StovePhase.phNone → s.timer_start = none) →
      (stoveDeviceStep c i s).1.timer_phase = StovePhase.phNone ∧
      (stoveDeviceStep c i s).1.timer_start = none ∧
      (stoveDeviceStep c i s).1.presence_window_start = none ∧
      ∀ e ∈ (stoveDeviceStep c i s).2, e.2 ≠ StoveEvent.stoveSwitchOff) ∧
    (∀ (c : StoveCfg) (inputs : List StoveInput) (s : StoveState),
      c.stove_safety_enabled = false →
      ∀ e ∈ (runStove c s inputs).2, e.2 ≠ StoveEvent.stoveSwitchOff) := by
  constructor
  · intro c i s hp hmw hpow hinv
    have h1 : ¬(s.powered_off_by_microwave = true) := by simp [hmw]
    have h2 : ¬¬((c.stove_power_threshold : ℚ) < i.power) := not_not_intro hpow
    simp only [stoveDeviceStep, if_neg h1, if_neg h2, if_pos hp]
    have hdeb := stove_debounce_timer c i s
    have hinv' : (stove_debounce_step c i s).1.timer_phase = StovePhase.phNone →
        (stove_debounce_step c i s).1.timer_start = none := by
      rcases hdeb with ⟨ha, hb⟩ | ⟨ha, hb⟩
      · intro h
        rw [hb]
        exact hinv (ha ▸ h)
      · intro _
        exact hb
    have hpr := stove_presence_reset_state ((stove_debounce_step c i s).1) hinv'
    refine ⟨hpr.1, hpr.2.1, hpr.2.2, ?_⟩
    intro e he
    rcases stove_debounce_events c i s e he with h | h <;> simp [h]
  · intro c inputs s hs
    exact runStove_no_switchOff_of_safety_disabled c hs inputs s

/-- Witness for C5 (amended): a stove mid-countdown at 1200 W whose
presence sensor fires — the countdown is cancelled and nothing is
de-energized; and a 3-tick run with safety disabled emits no turn-off. -/
theorem C5_presence_cancels_and_safety_off_never_cuts_witness :
    (stoveDeviceStep stoveScenarioCfg ⟨30, 1200, true, 0⟩
      ⟨true, some 11, StovePhase.ph15min, some false, false, false, false,
       none, some 0, none⟩).1.timer_phase = StovePhase.phNone ∧
    (stoveDeviceStep stoveScenarioCfg ⟨30, 1200, true, 0⟩
      ⟨true, some 11, StovePhase.ph15min, some false, false, false, false,
       none, some 0, none⟩).1.timer_start = none ∧
    (stoveDeviceStep stoveScenarioCfg ⟨30, 1200, true, 0⟩
      ⟨true, some 11, StovePhase.ph15min, some false, false, false, false,
       none, some 0, none⟩).1.presence_window_start = none ∧
    ∀ e ∈ (stoveDeviceStep stoveScenarioCfg ⟨30, 1200, true, 0⟩
      ⟨true, some 11, StovePhase.ph15min, some false, false, false, false,
       none, some 0, none⟩).2, e.2 ≠ StoveEvent.stoveSwitchOff :=
  (C5_presence_cancels_and_safety_off_never_cuts).1 stoveScenarioCfg
    ⟨30, 1200, true, 0⟩
    ⟨true, some 11, StovePhase.ph15min, some false, false, false, false,
     none, some 0, none⟩
    rfl rfl (by decide) (by decide)

/-- The two gate invariants: at most one live poll task per device, and the
per-device bookkeeping equation "everything ever enqueued = what the poller
already dispatched followed by what is still queued" (dispatch order is
therefore FIFO). -/
def ttsGateInv (g : TTSGateState) : Prop :=
  ∀ mp, g.poll_tasks mp ≤ 1 ∧
    g.enqueued mp = g.dispatched mp ++ g.queues mp

lemma ttsGateStep_preserves_inv (g : TTSGateState) (op : TTSOp)
    (h : ttsGateInv g) : ttsGateInv (ttsGateStep g op) := by
  cases op with
  | request now ds minI item =>
    intro mp
    simp only [ttsGateStep, async_send_tts_or_queue]
    by_cases hb : isBlankStr item.message = true
    · simp only [if_pos hb]
      exact h mp
    · simp only [if_neg hb]
      by_cases hm0 : item.media_player = ""
      · simp only [if_pos hm0]
        exact h mp
      · simp only [if_neg hm0]
        by_cases hcan : (is_media_player_ready_for_tts ds &&
            _can_send_now g item.media_player now minI) = true
        · simp only [if_pos hcan]
          exact h mp
        · simp only [if_neg hcan, TTSPendingQueue_enqueue]
          by_cases hmp : mp = item.media_player
          · subst hmp
            refine ⟨?_, ?_⟩
            · by_cases h0 : g.poll_tasks item.media_player = 0
              · simp [h0, Function.update_same]
              · simp only [if_neg h0]
                exact (h item.media_player).1
            · simp only [Function.update_same]
              rw [(h item.media_player).2, List.append_assoc]
          · refine ⟨?_, ?_⟩
            · by_cases h0 : g.poll_tasks item.media_player = 0
              · simp only [if_pos h0, Function.update_noteq hmp]
                exact (h mp).1
              · simp only [if_neg h0]
                exact (h mp).1
            · simp only [Function.update_noteq hmp]
              exact (h mp).2
  | pollWake mpd ds now =>
    intro mp
    simp only [ttsGateStep, _poll_until_ready_iteration]
    by_cases h1 : g.poll_tasks mpd = 0
    · simp only [if_pos h1]
      exact h mp
    · simp only [if_neg h1]
      rcases hq : g.queues mpd with _ | ⟨item, rest⟩
      · simp only [hq]
        by_cases hmp : mp = mpd
        · subst hmp
          refine ⟨?_, (h mp).2⟩
          simp only [Function.update_same]
          have := (h mp).1
          omega
        · simp only [Function.update_noteq hmp]
          exact h mp
      · simp only [hq]
        by_cases hr : is_media_player_ready_for_tts ds = true
        · simp only [if_pos hr]
          by_cases hmp : mp = mpd
          · subst hmp
            refine ⟨(h mp).1, ?_⟩
            simp only [Function.update_same]
            rw [(h mp).2, hq, List.append_assoc]
            simp
          · simp only [Function.update_noteq hmp]
            exact h mp
        · simp only [if_neg hr]
          exact h mp

lemma ttsGateRun_inv (ops : List TTSOp) : ttsGateInv (ttsGateRun initTTSGate ops) := by
  have hrun : ∀ (l : List TTSOp) (g : TTSGateState), ttsGateInv g →
      ttsGateInv (ttsGateRun g l) := by
    intro l
    induction l with
    | nil => intro g hg; exact hg
    | cons op rest ih =>
      intro g hg
      exact ih (ttsGateStep g op) (ttsGateStep_preserves_inv g op hg)
  refine hrun ops initTTSGate ?_
  intro mp
  exact ⟨by simp [initTTSGate], by simp [initTTSGate]⟩

/-- C7: (1) a request with a real message and target is sent immediately iff
the device's reported state is in the ready set, the device is not marked
sending, and at least the minimum inter-announcement interval has elapsed
since the last send to it; a request not sent immediately is appended to
that device's queue; (2) every state reachable from the initial gate state
has at most one live poll task per device; (3) in every reachable state the
items ever enqueued for a device are exactly the dispatched ones (in FIFO
order) followed by the still-pending queue. -/
theorem C7_announcement_gate (g : TTSGateState) (now : ℚ)
    (ds : Option String) (minI : ℚ) (item : TTSItem) :
    (isBlankStr item.message = false → item.media_player ≠ "" →
      (((async_send_tts_or_queue g now ds minI item).2 = true) ↔
        (is_media_player_ready_for_tts ds = true ∧
         g.sending item.media_player = false ∧
         ∀ t, g.last_send_time item.media_player = some t → minI ≤ now - t)) ∧
      ((async_send_tts_or_queue g now ds minI item).2 = false →
        (async_send_tts_or_queue g now ds minI item).1.queues item.media_player
          = g.queues item.media_player ++ [item])) ∧
    (∀ (ops : List TTSOp) (mp : String),
      (ttsGateRun initTTSGate ops).poll_tasks mp ≤ 1) ∧
    (∀ (ops : List TTSOp) (mp : String),
      (ttsGateRun initTTSGate ops).enqueued mp
        = (ttsGateRun initTTSGate ops).dispatched mp
          ++ (ttsGateRun initTTSGate ops).queues mp) := by
  refine ⟨?_, fun ops mp => (ttsGateRun_inv ops mp).1,
    fun ops mp => (ttsGateRun_inv ops mp).2⟩
  intro hmsg hmp
  have hmsg' : ¬(isBlankStr item.message = true) := by simp [hmsg]
  constructor
  · simp only [async_send_tts_or_queue, if_neg hmsg', if_neg hmp]
    by_cases hcan : (is_media_player_ready_for_tts ds &&
        _can_send_now g item.media_player now minI) = true
    · rw [if_pos hcan]
      simp only [true_iff]
      rw [Bool.and_eq_true] at hcan
      obtain ⟨hready, hsend⟩ := hcan
      refine ⟨hready, ?_, ?_⟩
      · by_contra hs
        have hs' : g.sending item.media_player = true := by
          cases hb2 : g.sending item.media_player
          · exact absurd hb2 hs
          · rfl
        simp [_can_send_now, hs'] at hsend
      · intro t ht
        by_contra hlt
        simp only [_can_send_now, ht] at hsend
        split_ifs at hsend with h0
        all_goals simp_all
        all_goals linarith
    · rw [if_neg hcan]
      simp only [Bool.false_eq_true, false_iff]
      rintro ⟨hready, hsendf, hint⟩
      apply hcan
      rw [hready]
      simp only [Bool.true_and, _can_send_now]
      rw [if_neg (by simp [hsendf])]
      rcases hlast : g.last_send_time item.media_player with _ | t
      · rfl
      · exact decide_eq_true (hint t hlast)
  · intro hf
    simp only [async_send_tts_or_queue, if_neg hmsg', if_neg hmp] at hf ⊢
    by_cases hcan : (is_media_player_ready_for_tts ds &&
        _can_send_now g item.media_player now minI) = true
    · rw [if_pos hcan] at hf
      simp at hf
    · rw [if_neg hcan]
      simp [TTSPendingQueue_enqueue, Function.update_same]

/-- Witness for C7 at concrete inputs: from the initial gate state, a
request to an idle device is sent immediately; and a fresh two-operation run
(one queued request, one poll wake) keeps the poll-task and FIFO
invariants. -/
theorem C7_announcement_gate_witness :
    ((async_send_tts_or_queue initTTSGate 0 (some "idle") (3 : ℚ)
        ⟨"media_player.kitchen", "hello"⟩).2 = true ↔
      (is_media_player_ready_for_tts (some "idle") = true ∧
       initTTSGate.sending "media_player.kitchen" = false ∧
       ∀ t, initTTSGate.last_send_time "media_player.kitchen" = some t →
         (3 : ℚ) ≤ 0 - t)) ∧
    (ttsGateRun initTTSGate
      [TTSOp.request 0 none 3 ⟨"media_player.kitchen", "hello"⟩,
       TTSOp.pollWake "media_player.kitchen" (some "idle") 2]).poll_tasks
      "media_player.kitchen" ≤ 1 :=
  ⟨((C7_announcement_gate initTTSGate 0 (some "idle") 3
      ⟨"media_player.kitchen", "hello"⟩).1 (by decide) (by decide)).1,
   (C7_announcement_gate initTTSGate 0 (some "idle") 3
      ⟨"media_player.kitchen", "hello"⟩).2.1
     [TTSOp.request 0 none 3 ⟨"media_player.kitchen", "hello"⟩,
      TTSOp.pollWake "media_player.kitchen" (some "idle") 2]
     "media_player.kitchen"⟩

end HomeEnergy
